import Mathlib

/-!
# Verification of the value-decoding layer of sqlite_orm (`dev/row_extractor.h`)

This file gives a shallow embedding of the `row_extractor` specializations of
sqlite_orm and proves properties of the three decode paths:

* column text (`extract(const char*)`), used in callback mode,
* prepared-statement column (`extract(sqlite3_stmt*, int)`), used in cursor mode,
* boxed dynamic value (`extract(sqlite3_value*)`), used for user-defined
  function arguments.

The embedded SQL engine (SQLite) and the C library are external collaborators
of the repository; the functions modelling them (`sqlite3_column_int`,
`atoi64`, ...) are translated from their documented behaviour, which the spec
summarises in its external-interface section.  The `row_extractor`
specializations themselves are translated member by member from
`dev/row_extractor.h`.
-/

namespace SqliteOrm

/-! ## C strings

A `const char*` received from the engine is modelled as `Option CStr`:
`none` is the null pointer, `some b` is a pointer to a buffer whose logical
bytes are `b` (the engine appends a terminating NUL after them; `b` itself may
contain embedded NUL bytes when the underlying value is a blob). -/

/-- The bytes of a C buffer, terminating NUL not included. -/
abbrev CStr := List Nat

/-- What a C-string consumer (`strlen`, `std::string(const char*)`, ...) sees:
the bytes up to the first NUL. -/
def cstrTake (b : CStr) : List Nat :=
  b.takeWhile (fun c => c ≠ 0)

/-- libc `strlen`: number of bytes before the first NUL. -/
def strlen (b : CStr) : Nat :=
  (cstrTake b).length

/-- Whitespace predicate used by the libc numeric parsers
(space or the characters 9..13). -/
def isSpaceByte (c : Nat) : Bool :=
  c = 32 || (9 ≤ c && c ≤ 13)

/-- Accumulating decimal-digit parser: consumes leading decimal digit bytes
and folds them onto `acc`; stops at the first non-digit byte (in particular at
a NUL byte). -/
def parseDigits (acc : Nat) : List Nat → Nat
  | [] => acc
  | c :: cs => if 48 ≤ c ∧ c ≤ 57 then parseDigits (acc * 10 + (c - 48)) cs else acc

/-- Decimal integer parse shared by the models of libc `atoi`/`atoll` and of
SQLite's own text-to-integer conversion: skip leading whitespace, an optional
sign, then decimal digits; parsing stops at the first non-digit byte.
Overflow (a result outside the C return type's range) is undefined behaviour
in C and is excluded by range hypotheses in the theorems below. -/
def atoi64 (b : List Nat) : Int :=
  match b.dropWhile isSpaceByte with
  | [] => 0
  | c :: rest =>
    if c = 45 then -(parseDigits 0 rest : Int)
    else if c = 43 then (parseDigits 0 rest : Int)
    else (parseDigits 0 (c :: rest) : Int)

/-- Modelled from the spec: libc `atoi` applied to a possibly-null
`const char*`.  The source passes the column-text pointer to `atoi` with no
null check; per the spec, extraction of a null value "yields 0, matching
underlying numeric-parse-of-empty-string semantics", so the null pointer is
modelled as the parse of the empty string. -/
def atoi_on (ct : Option CStr) : Int :=
  atoi64 (ct.getD [])

/-- Modelled from the spec: libc `atoll` applied to a possibly-null
`const char*`; same parse as `atoi` with a 64-bit result range. -/
def atoll_on (ct : Option CStr) : Int :=
  atoi64 (ct.getD [])

/-- Two's-complement truncation to a signed `w`-bit integer, the effect of the
C casts between integer types of different widths. -/
def icast (w : Nat) (x : Int) : Int :=
  let r := x % ((2 : Int) ^ w)
  if r < (2 : Int) ^ (w - 1) then r else r - (2 : Int) ^ w

/-! ## The engine's dynamic values

A protected SQLite value (`sqlite3_value`) or the content of one result
column: NULL, integer, text, blob, or a pointer-handle bound through the
pointer-passing interface.  (REAL values are omitted: floating point is
outside this embedding, and no theorem below quantifies over them.) -/

inductive sqlvalue : Type
  | null : sqlvalue
  | int (i : Int) : sqlvalue
  | text (bytes : List Nat) : sqlvalue
  | blob (bytes : List Nat) : sqlvalue
  | ptr (tag : String) (p : Nat) : sqlvalue
deriving DecidableEq, Repr

/-- SQLite fundamental datatype codes. -/
def SQLITE_INTEGER : Nat := 1
def SQLITE_TEXT : Nat := 3
def SQLITE_BLOB : Nat := 4
def SQLITE_NULL : Nat := 5

/-- `sqlite3_value_type`: the datatype code of a value.  Pointer-handle values
look like NULL to everything except `sqlite3_value_pointer`. -/
def sqlite3_value_type : sqlvalue → Nat
  | .null => SQLITE_NULL
  | .int _ => SQLITE_INTEGER
  | .text _ => SQLITE_TEXT
  | .blob _ => SQLITE_BLOB
  | .ptr _ _ => SQLITE_NULL

/-- Decimal digits of a natural number, most significant first
(`0` is rendered as the single digit `0`). -/
def natDecimalDigits (n : Nat) : List Nat :=
  if n = 0 then [0] else (Nat.digits 10 n).reverse

/-- Decimal byte rendering of a natural number. -/
def natDecimalBytes (n : Nat) : List Nat :=
  (natDecimalDigits n).map (· + 48)

/-- Decimal byte rendering of an integer (`45` is the minus sign). -/
def intDecimalBytes (i : Int) : List Nat :=
  if i < 0 then 45 :: natDecimalBytes i.natAbs else natDecimalBytes i.toNat

/-- The engine's conversion of a value to a 64-bit integer, used by
`sqlite3_value_int64` / `sqlite3_column_int64` (and, truncated, by the 32-bit
accessors): NULL and pointer-handles give 0, integers give themselves, text
and blob bytes are parsed as a decimal prefix. -/
def sqlIntValue : sqlvalue → Int
  | .null => 0
  | .int i => i
  | .text b => atoi64 b
  | .blob b => atoi64 b
  | .ptr _ _ => 0

/-- The engine's text rendering of a value, as returned by
`sqlite3_value_text` / `sqlite3_column_text`: the null pointer for NULL (and
for pointer-handles, which look like NULL), the decimal rendering for
integers, the bytes themselves for text and blob. -/
def sqlTextRepr : sqlvalue → Option CStr
  | .null => none
  | .int i => some (intDecimalBytes i)
  | .text b => some b
  | .blob b => some b
  | .ptr _ _ => none

/-- The engine's blob rendering of a value, as returned by
`sqlite3_value_blob` together with `sqlite3_value_bytes`: an empty byte range
for NULL and pointer-handles, the decimal rendering for integers, the full
byte sequence (embedded NULs included) for text and blob. -/
def sqlBlobRepr : sqlvalue → List Nat
  | .null => []
  | .int i => intDecimalBytes i
  | .text b => b
  | .blob b => b
  | .ptr _ _ => []

/-- `sqlite3_value_int`: 32-bit integer accessor (cast of the 64-bit value). -/
def sqlite3_value_int (v : sqlvalue) : Int :=
  icast 32 (sqlIntValue v)

/-- `sqlite3_value_int64`: 64-bit integer accessor. -/
def sqlite3_value_int64 (v : sqlvalue) : Int :=
  icast 64 (sqlIntValue v)

/-- `sqlite3_value_text`. -/
def sqlite3_value_text (v : sqlvalue) : Option CStr :=
  sqlTextRepr v

/-- `sqlite3_value_pointer`: the pointer stored through the pointer-passing
interface, provided the value is a pointer-handle whose type tag matches;
the null pointer (`none`) otherwise. -/
def sqlite3_value_pointer (v : sqlvalue) (tag : String) : Option Nat :=
  match v with
  | .ptr t p => if t = tag then some p else none
  | _ => none

/-- A prepared statement positioned on a result row: the row's column
values. -/
structure sqlite3_stmt : Type where
  row : List sqlvalue
deriving DecidableEq, Repr

/-- The dynamic value held in result column `i` (SQLite yields NULL for an
out-of-range column index). -/
def column_value (stmt : sqlite3_stmt) (i : Nat) : sqlvalue :=
  stmt.row.getD i .null

/-- `sqlite3_column_type`. -/
def sqlite3_column_type (stmt : sqlite3_stmt) (i : Nat) : Nat :=
  sqlite3_value_type (column_value stmt i)

/-- `sqlite3_column_int`. -/
def sqlite3_column_int (stmt : sqlite3_stmt) (i : Nat) : Int :=
  icast 32 (sqlIntValue (column_value stmt i))

/-- `sqlite3_column_int64`. -/
def sqlite3_column_int64 (stmt : sqlite3_stmt) (i : Nat) : Int :=
  icast 64 (sqlIntValue (column_value stmt i))

/-- `sqlite3_column_text`. -/
def sqlite3_column_text (stmt : sqlite3_stmt) (i : Nat) : Option CStr :=
  sqlTextRepr (column_value stmt i)

/-- `sqlite3_column_blob` (paired with `sqlite3_column_bytes` below). -/
def sqlite3_column_blob (stmt : sqlite3_stmt) (i : Nat) : List Nat :=
  sqlBlobRepr (column_value stmt i)

/-- `sqlite3_column_bytes`: the size of the blob returned by
`sqlite3_column_blob`. -/
def sqlite3_column_bytes (stmt : sqlite3_stmt) (i : Nat) : Nat :=
  (sqlBlobRepr (column_value stmt i)).length

/-! ## `row_extractor` specializations

Each C++ member function `extract(...)` of a `row_extractor` specialization in
`dev/row_extractor.h` becomes one Lean definition below. -/

/-- The three decode contexts of a `row_extractor` (the three `extract`
overloads of the primary template). -/
inductive DecodePath : Type
  | column_text : DecodePath
  | row_value : DecodePath
  | boxed_value : DecodePath
deriving DecidableEq, Repr

/-! ### Arithmetic types (`row_extractor<V>` for `std::is_arithmetic<V>`)

The specialization dispatches on `arithmetic_tag_t<V>`: `int_or_smaller_tag`
and `bigint_tag` select the integer accessors, `real_tag` the floating
accessors.  The native value spaces differ (integers vs doubles), so the
dispatch is embedded split by value space: the two integer tags index the
`Int`-valued family `arithmetic_extract_*`, and the `real_tag` strategies are
the `ℚ`-valued family `arithmetic_real_extract_*` below.  The C++
`static_cast<V>` applied to each accessor's result is abstracted as a function
`castV` on the value space (for a genuine integral type `V` of width `w` it is
`icast w`; for `double` itself it is the identity). -/

/-- The integer dispatch tags of `arithmetic_tag_t` (from `arithmetic_tag.h`);
the remaining tag, `real_tag`, indexes the `ℚ`-valued family below. -/
inductive arithmetic_tag : Type
  | int_or_smaller_tag : arithmetic_tag
  | bigint_tag : arithmetic_tag
deriving DecidableEq, Repr

/-- `extract(const char* columnText)` of the arithmetic specialization:
`static_cast<V>(atoi(columnText))` resp. `static_cast<V>(atoll(columnText))`,
with no null check on `columnText`. -/
def arithmetic_extract_text (tag : arithmetic_tag) (castV : Int → Int)
    (columnText : Option CStr) : Int :=
  match tag with
  | .int_or_smaller_tag => castV (atoi_on columnText)
  | .bigint_tag => castV (atoll_on columnText)

/-- `extract(sqlite3_stmt*, int)` of the arithmetic specialization:
`static_cast<V>(sqlite3_column_int(stmt, columnIndex))` resp.
`static_cast<V>(sqlite3_column_int64(stmt, columnIndex))`. -/
def arithmetic_extract_stmt (tag : arithmetic_tag) (castV : Int → Int)
    (stmt : sqlite3_stmt) (columnIndex : Nat) : Int :=
  match tag with
  | .int_or_smaller_tag => castV (sqlite3_column_int stmt columnIndex)
  | .bigint_tag => castV (sqlite3_column_int64 stmt columnIndex)

/-- `extract(sqlite3_value*)` of the arithmetic specialization:
`static_cast<V>(sqlite3_value_int(value))` resp.
`static_cast<V>(sqlite3_value_int64(value))`. -/
def arithmetic_extract_value (tag : arithmetic_tag) (castV : Int → Int)
    (value : sqlvalue) : Int :=
  match tag with
  | .int_or_smaller_tag => castV (sqlite3_value_int value)
  | .bigint_tag => castV (sqlite3_value_int64 value)

/-- The integer range of the accessor used by each tag: values inside it
survive the 32-bit resp. 64-bit accessor and the libc parser unchanged. -/
def tagRange (tag : arithmetic_tag) (x : Int) : Prop :=
  match tag with
  | .int_or_smaller_tag => -(2 ^ 31) ≤ x ∧ x < 2 ^ 31
  | .bigint_tag => -(2 ^ 63) ≤ x ∧ x < 2 ^ 63

instance (tag : arithmetic_tag) (x : Int) : Decidable (tagRange tag x) := by
  cases tag <;> simp only [tagRange] <;> infer_instance

/-! #### The `real_tag` sub-strategies

Floating values are modelled exactly, as rationals: hexadecimal, infinity and
NaN input forms of `strtod`, and the IEEE binary64 rounding performed by libc
and the engine, are outside this embedding.  The modelling is exact (agrees
with the C semantics) at exactly representable values, in particular at zero,
the only value the theorems below evaluate the real path at. -/

/-- The decimal-digit-byte prefix of a byte list. -/
def digitsPrefix (b : List Nat) : List Nat :=
  b.takeWhile (fun c => 48 ≤ c && c ≤ 57)

/-- Magnitude part of the libc decimal floating parse: integer digits, an
optional fraction after a decimal point, an optional decimal exponent
introduced by the letter e or E with an optional sign.  An absent part
contributes nothing (no digits parse to 0). -/
def atofQmag (b : List Nat) : ℚ :=
  let ip := digitsPrefix b
  let r1 := b.drop ip.length
  let intVal : ℚ := (parseDigits 0 ip : ℚ)
  let fracRest : ℚ × List Nat :=
    match r1 with
    | 46 :: r =>
      let fp := digitsPrefix r
      ((parseDigits 0 fp : ℚ) / (10 : ℚ) ^ fp.length, r.drop fp.length)
    | _ => (0, r1)
  let expVal : Int :=
    match fracRest.2 with
    | c :: r =>
      if c = 101 ∨ c = 69 then
        match r with
        | s :: r2 =>
          if s = 45 then -(parseDigits 0 (digitsPrefix r2) : Int)
          else if s = 43 then (parseDigits 0 (digitsPrefix r2) : Int)
          else (parseDigits 0 (digitsPrefix r) : Int)
        | [] => 0
      else 0
    | [] => 0
  (intVal + fracRest.1) * (10 : ℚ) ^ expVal

/-- Decimal floating parse of libc `atof` (`strtod`) and of the engine's own
text-to-real conversion: skip leading whitespace and an optional sign, then
parse a decimal magnitude; no conversion (e.g. the empty string) yields
zero. -/
def atofQ (b : List Nat) : ℚ :=
  match b.dropWhile isSpaceByte with
  | [] => 0
  | c :: rest =>
    if c = 45 then -(atofQmag rest)
    else if c = 43 then atofQmag rest
    else atofQmag (c :: rest)

/-- Modelled from the spec: libc `atof` applied to a possibly-null
`const char*`.  As with `atoi_on`, the source passes the column-text pointer
to `atof` with no null check, and the null pointer is modelled as the
numeric parse of the empty string, which yields zero. -/
def atof_on (ct : Option CStr) : ℚ :=
  atofQ (ct.getD [])

/-- The engine's conversion of a value to a double, used by
`sqlite3_value_double` / `sqlite3_column_double`: NULL and pointer-handles
give 0.0, integers their (here exactly modelled) numeric value, text and blob
bytes a decimal floating parse of their prefix. -/
def sqlRealValue : sqlvalue → ℚ
  | .null => 0
  | .int i => (i : ℚ)
  | .text b => atofQ b
  | .blob b => atofQ b
  | .ptr _ _ => 0

/-- `sqlite3_column_double`. -/
def sqlite3_column_double (stmt : sqlite3_stmt) (i : Nat) : ℚ :=
  sqlRealValue (column_value stmt i)

/-- `sqlite3_value_double`. -/
def sqlite3_value_double (v : sqlvalue) : ℚ :=
  sqlRealValue v

/-- `extract(const char* columnText, const real_tag&)` of the arithmetic
specialization: `static_cast<V>(atof(columnText))`, with no null check on
`columnText`. -/
def arithmetic_real_extract_text (castV : ℚ → ℚ) (columnText : Option CStr) : ℚ :=
  castV (atof_on columnText)

/-- `extract(sqlite3_stmt*, int, const real_tag&)` of the arithmetic
specialization: `static_cast<V>(sqlite3_column_double(stmt, columnIndex))`. -/
def arithmetic_real_extract_stmt (castV : ℚ → ℚ) (stmt : sqlite3_stmt)
    (columnIndex : Nat) : ℚ :=
  castV (sqlite3_column_double stmt columnIndex)

/-- `extract(sqlite3_value*, const real_tag&)` of the arithmetic
specialization: `static_cast<V>(sqlite3_value_double(value))`. -/
def arithmetic_real_extract_value (castV : ℚ → ℚ) (value : sqlvalue) : ℚ :=
  castV (sqlite3_value_double value)

/-! ### Text types -/

/-- `extract(const char* columnText)` of the `std::string`-based
specialization: `std::string` constructed from the pointer when non-null
(copying up to the first NUL), the empty string otherwise. -/
def string_extract_text (columnText : Option CStr) : List Nat :=
  match columnText with
  | some b => cstrTake b
  | none => []

/-- `extract(sqlite3_stmt*, int)` of the `std::string`-based specialization:
`sqlite3_column_text`, the empty string when it yields the null pointer. -/
def string_extract_stmt (stmt : sqlite3_stmt) (columnIndex : Nat) : List Nat :=
  match sqlite3_column_text stmt columnIndex with
  | some b => cstrTake b
  | none => []

/-- `extract(sqlite3_value*)` of the `std::string`-based specialization:
`sqlite3_value_text`, the empty string when it yields the null pointer. -/
def string_extract_value (value : sqlvalue) : List Nat :=
  match sqlite3_value_text value with
  | some b => cstrTake b
  | none => []

/-- `sqlite3_value_text16`: the engine's UTF-16 rendering of a value; the
conversion UTF-8 → UTF-16 performed by the engine is abstracted as `enc16`
(`none`, the null pointer, for NULL and pointer-handle values). -/
def sqlite3_value_text16 (enc16 : List Nat → List Nat) (v : sqlvalue) :
    Option (List Nat) :=
  (sqlTextRepr v).map enc16

/-- `extract(const char* columnText)` of the `std::wstring` specialization:
`wstring_convert<codecvt_utf8_utf16<wchar_t>>::from_bytes(columnText)` when
non-null (the facet's conversion is abstracted as `conv`, applied to the bytes
up to the first NUL), the empty wide string otherwise. -/
def wstring_extract_text (conv : List Nat → List Nat)
    (columnText : Option CStr) : List Nat :=
  match columnText with
  | some b => conv (cstrTake b)
  | none => []

/-- `extract(sqlite3_stmt*, int)` of the `std::wstring` specialization:
`from_bytes` of `sqlite3_column_text` when non-null, empty otherwise. -/
def wstring_extract_stmt (conv : List Nat → List Nat)
    (stmt : sqlite3_stmt) (columnIndex : Nat) : List Nat :=
  match sqlite3_column_text stmt columnIndex with
  | some b => conv (cstrTake b)
  | none => []

/-- `extract(sqlite3_value*)` of the `std::wstring` specialization:
`std::wstring` constructed from the `wchar_t*` of `sqlite3_value_text16` when
non-null (copying up to the first zero unit), empty otherwise. -/
def wstring_extract_value (enc16 : List Nat → List Nat)
    (value : sqlvalue) : List Nat :=
  match sqlite3_value_text16 enc16 value with
  | some u => u.takeWhile (fun c => c ≠ 0)
  | none => []

/-! ### Smart pointers (`row_extractor<V>` for `is_std_ptr<V>`)

A `std::unique_ptr<T>` / `std::shared_ptr<T>` result is abstracted by its
construction interface: `mk` is `is_std_ptr<V>::make` (allocate holding the
decoded value) and `empty` is the default-constructed (null) pointer `{}`.
`f` is the inner type's extractor for the corresponding path. -/

/-- `extract(const char* columnText)` of the `is_std_ptr` specialization:
null pointer check on the text, then delegate to the inner extractor. -/
def std_ptr_extract_text (mk : α → β) (empty : β) (f : Option CStr → α)
    (columnText : Option CStr) : β :=
  match columnText with
  | some b => mk (f (some b))
  | none => empty

/-- `extract(sqlite3_stmt*, int)` of the `is_std_ptr` specialization:
`sqlite3_column_type` is compared against `SQLITE_NULL`, then delegate. -/
def std_ptr_extract_stmt (mk : α → β) (empty : β)
    (f : sqlite3_stmt → Nat → α) (stmt : sqlite3_stmt) (columnIndex : Nat) : β :=
  if sqlite3_column_type stmt columnIndex ≠ SQLITE_NULL then
    mk (f stmt columnIndex)
  else empty

/-- `extract(sqlite3_value*)` of the `is_std_ptr` specialization:
`sqlite3_value_type` is compared against `SQLITE_NULL`, then delegate. -/
def std_ptr_extract_value (mk : α → β) (empty : β) (f : sqlvalue → α)
    (value : sqlvalue) : β :=
  if sqlite3_value_type value ≠ SQLITE_NULL then mk (f value) else empty

/-! ### `std::optional<T>` -/

/-- `extract(const char* columnText)` of the `std::optional` specialization:
`std::make_optional(inner.extract(columnText))` when the text pointer is
non-null, `std::nullopt` otherwise. -/
def optional_extract_text (f : Option CStr → α) (columnText : Option CStr) :
    Option α :=
  match columnText with
  | some b => some (f (some b))
  | none => none

/-- `extract(sqlite3_stmt*, int)` of the `std::optional` specialization:
present with the inner extraction when `sqlite3_column_type` is not
`SQLITE_NULL`, absent otherwise. -/
def optional_extract_stmt (f : sqlite3_stmt → Nat → α)
    (stmt : sqlite3_stmt) (columnIndex : Nat) : Option α :=
  if sqlite3_column_type stmt columnIndex ≠ SQLITE_NULL then
    some (f stmt columnIndex)
  else none

/-- `extract(sqlite3_value*)` of the `std::optional` specialization:
present with the inner extraction when `sqlite3_value_type` is not
`SQLITE_NULL`, absent otherwise. -/
def optional_extract_value (f : sqlvalue → α) (value : sqlvalue) : Option α :=
  if sqlite3_value_type value ≠ SQLITE_NULL then some (f value) else none

/-! ### Blobs (`row_extractor<std::vector<char>>`) -/

/-- `extract(const char* columnText)` of the `std::vector<char>`
specialization: the byte range `{columnText, columnText + (columnText ?
strlen(columnText) : 0)}`, i.e. the bytes before the first NUL, and the empty
vector for the null pointer. -/
def vector_char_extract_text (columnText : Option CStr) : List Nat :=
  match columnText with
  | some b => b.take (strlen b)
  | none => []

/-- `extract(sqlite3_stmt*, int)` of the `std::vector<char>` specialization:
the byte range `{bytes, bytes + len}` with `bytes = sqlite3_column_blob` and
`len = sqlite3_column_bytes`. -/
def vector_char_extract_stmt (stmt : sqlite3_stmt) (columnIndex : Nat) :
    List Nat :=
  let bytes := sqlite3_column_blob stmt columnIndex
  let len := sqlite3_column_bytes stmt columnIndex
  bytes.take len

/-- `sqlite3_value_blob` (paired with `sqlite3_value_bytes`). -/
def sqlite3_value_blob (v : sqlvalue) : List Nat :=
  sqlBlobRepr v

/-- `sqlite3_value_bytes`. -/
def sqlite3_value_bytes (v : sqlvalue) : Nat :=
  (sqlBlobRepr v).length

/-- `extract(sqlite3_value*)` of the `std::vector<char>` specialization:
the byte range `{bytes, bytes + len}` with `bytes = sqlite3_value_blob` and
`len = sqlite3_value_bytes`. -/
def vector_char_extract_value (value : sqlvalue) : List Nat :=
  let bytes := sqlite3_value_blob value
  let len := sqlite3_value_bytes value
  bytes.take len

/-! ### Tuples (`row_extractor<std::tuple<Args...>>`)

An `N`-element tuple with element types `T 0, ..., T (N-1)` is embedded as a
dependent function `∀ i : Fin n, T i`; the element extractors (one
`row_extractor<Args>` per element) are a dependent family over the index. -/

/-- The pack expansion `{row_extractor<Args>{}.extract(stmt, Idx)...}`:
element `i` is decoded from column index `i` by its own extractor. -/
def tuple_extract_stmt_elems {n : Nat} {T : Fin n → Type}
    (extr : ∀ i : Fin n, sqlite3_stmt → Nat → T i) (stmt : sqlite3_stmt) :
    ∀ i : Fin n, T i :=
  fun i => extr i stmt i.val

/-- `extract(sqlite3_stmt* stmt, int columnIndex)` of the tuple
specialization: delegates to the index-sequence expansion; the `columnIndex`
parameter is unnamed in the source and not passed on. -/
def tuple_extract_stmt {n : Nat} {T : Fin n → Type}
    (extr : ∀ i : Fin n, sqlite3_stmt → Nat → T i) (stmt : sqlite3_stmt)
    (_columnIndex : Nat) : ∀ i : Fin n, T i :=
  tuple_extract_stmt_elems extr stmt

/-- The pack expansion `{row_extractor<Args>{}.extract(argv[Idx])...}` behind
`extract(char** argv)`: element `i` is decoded from `argv[i]` by its own
extractor (`argv`, a `char**`, is modelled as a function from index to
possibly-null C string). -/
def tuple_extract_argv {n : Nat} {T : Fin n → Type}
    (extr : ∀ i : Fin n, Option CStr → T i) (argv : Nat → Option CStr) :
    ∀ i : Fin n, T i :=
  fun i => extr i (argv i.val)

/-! ### Journal mode (`row_extractor<journal_mode>`) -/

/-- The `journal_mode` enumeration (from `journal_mode.h`, declared outside
the sampled sources): the journal modes of the engine. -/
inductive journal_mode : Type
  | DELETE | TRUNCATE | PERSIST | MEMORY | WAL | OFF
deriving DecidableEq, Repr

/-- The error codes thrown by the decoding layer (from `error_code.h`,
declared outside the sampled sources; only the code used by
`row_extractor<journal_mode>` is embedded). -/
inductive orm_error_code : Type
  | incorrect_journal_mode_string
deriving DecidableEq, Repr

/-- Uppercasing of an ASCII byte, for case-insensitive vocabulary matching. -/
def toUpperByte (c : Nat) : Nat :=
  if 97 ≤ c ∧ c ≤ 122 then c - 32 else c

/-- The bytes of a string literal. -/
def strBytes (s : String) : List Nat :=
  s.data.map Char.toNat

/-- Modelled from the spec: `internal::journal_mode_from_string` (declared in
`journal_mode.h`, not among the sampled sources).  Per the spec, decoding
"parses a fixed vocabulary of mode names" and input "wal" succeeds, so the
match is case-insensitive over the engine's journal-mode vocabulary;
anything outside the vocabulary yields no value. -/
def journal_mode_from_string (b : List Nat) : Option journal_mode :=
  let u := b.map toUpperByte
  if u = strBytes "DELETE" then some .DELETE
  else if u = strBytes "TRUNCATE" then some .TRUNCATE
  else if u = strBytes "PERSIST" then some .PERSIST
  else if u = strBytes "MEMORY" then some .MEMORY
  else if u = strBytes "WAL" then some .WAL
  else if u = strBytes "OFF" then some .OFF
  else none

/-- `extract(const char* columnText)` of the `journal_mode` specialization:
parse the text through `journal_mode_from_string` (the `const std::string&`
parameter copies the pointer's bytes up to the first NUL); a null pointer or
an unrecognized string throws
`std::system_error{orm_error_code::incorrect_journal_mode_string}`,
embedded as `Except.error`. -/
def journal_mode_extract_text (columnText : Option CStr) :
    Except orm_error_code journal_mode :=
  match columnText with
  | some b =>
    match journal_mode_from_string (cstrTake b) with
    | some res => Except.ok res
    | none => Except.error orm_error_code.incorrect_journal_mode_string
  | none => Except.error orm_error_code.incorrect_journal_mode_string

/-- `extract(sqlite3_stmt*, int)` of the `journal_mode` specialization:
reads `sqlite3_column_text` and delegates to the text overload. -/
def journal_mode_extract_stmt (stmt : sqlite3_stmt) (columnIndex : Nat) :
    Except orm_error_code journal_mode :=
  journal_mode_extract_text (sqlite3_column_text stmt columnIndex)

/-- Which decode paths the `journal_mode` specialization provides: it
declares only the text and row-value overloads (the primary template's
deleted members leave the boxed-value path unavailable). -/
def journal_mode_supports : DecodePath → Bool
  | .column_text => true
  | .row_value => true
  | .boxed_value => false

/-! ### Pointer-passing interface (`row_extractor<pointer_arg<P, T>>`) -/

/-- Which decode paths the `pointer_arg` specialization provides:
`extract(const char*)` and `extract(sqlite3_stmt*, int)` are declared
`= delete`; only `extract(sqlite3_value*)` is defined. -/
def pointer_arg_supports : DecodePath → Bool
  | .column_text => false
  | .row_value => false
  | .boxed_value => true

/-- `extract(sqlite3_value*)` of the `pointer_arg<P, T>` specialization:
`{(P*)sqlite3_value_pointer(value, T::value)}` — the typed pointer retrieved
by the registered tag, wrapped in a `pointer_arg` (modelled as the possibly
null pointer itself). -/
def pointer_arg_extract_value (tag : String) (value : sqlvalue) : Option Nat :=
  sqlite3_value_pointer value tag

/-! ## Helper lemmas -/

lemma parseDigits_map_add48 (l : List Nat) (acc : Nat) (h : ∀ d ∈ l, d < 10) :
    parseDigits acc (l.map (· + 48)) = l.foldl (fun a d => a * 10 + d) acc := by
  induction l generalizing acc with
  | nil => rfl
  | cons c cs ih =>
    have hc : c < 10 := h c (List.mem_cons_self c cs)
    have hcs : ∀ d ∈ cs, d < 10 := fun d hd => h d (List.mem_cons_of_mem c hd)
    simp only [List.map_cons, parseDigits, List.foldl_cons]
    rw [if_pos (by omega)]
    have : c + 48 - 48 = c := by omega
    rw [this, ih _ hcs]

lemma foldl_digits_eq_ofDigits (l : List Nat) (acc : Nat) :
    l.foldl (fun a d => a * 10 + d) acc =
      acc * 10 ^ l.length + Nat.ofDigits 10 l.reverse := by
  induction l generalizing acc with
  | nil => simp [Nat.ofDigits]
  | cons c cs ih =>
    simp only [List.foldl_cons, List.reverse_cons, List.length_cons]
    rw [ih, Nat.ofDigits_append]
    have : Nat.ofDigits 10 [c] = c := Nat.ofDigits_singleton
    rw [this]
    simp only [List.length_reverse]
    ring

lemma natDecimalDigits_lt (n : Nat) : ∀ d ∈ natDecimalDigits n, d < 10 := by
  intro d hd
  unfold natDecimalDigits at hd
  split at hd
  · simp at hd
    omega
  · rw [List.mem_reverse] at hd
    exact Nat.digits_lt_base (by norm_num) hd

lemma natDecimalDigits_ne_nil (n : Nat) : natDecimalDigits n ≠ [] := by
  unfold natDecimalDigits
  split
  · simp
  · simp [Nat.digits_ne_nil_iff_ne_zero, *]

lemma parseDigits_natDecimalBytes (n : Nat) :
    parseDigits 0 (natDecimalBytes n) = n := by
  unfold natDecimalBytes
  rw [parseDigits_map_add48 _ _ (natDecimalDigits_lt n), foldl_digits_eq_ofDigits]
  unfold natDecimalDigits
  split
  · simp [Nat.ofDigits, *]
  · rw [List.reverse_reverse, Nat.ofDigits_digits]
    ring

lemma natDecimalBytes_head (n : Nat) :
    ∃ c cs, natDecimalBytes n = c :: cs ∧ 48 ≤ c ∧ c ≤ 57 := by
  unfold natDecimalBytes
  cases hl : natDecimalDigits n with
  | nil => exact absurd hl (natDecimalDigits_ne_nil n)
  | cons d ds =>
    refine ⟨d + 48, ds.map (· + 48), by simp, by omega, ?_⟩
    have : d < 10 := natDecimalDigits_lt n d (hl ▸ List.mem_cons_self d ds)
    omega

lemma isSpaceByte_eq_false_of_ge (c : Nat) (h : 43 ≤ c) : isSpaceByte c = false := by
  simp only [isSpaceByte, Bool.or_eq_false_iff, decide_eq_false_iff_not,
    Bool.and_eq_false_iff]
  omega

lemma atoi64_natDecimalBytes (n : Nat) : atoi64 (natDecimalBytes n) = n := by
  obtain ⟨c, cs, hcons, hlo, hhi⟩ := natDecimalBytes_head n
  unfold atoi64
  rw [hcons, List.dropWhile_cons, isSpaceByte_eq_false_of_ge c (by omega)]
  simp only [Bool.false_eq_true, if_false]
  rw [if_neg (by omega), if_neg (by omega), ← hcons, parseDigits_natDecimalBytes]

lemma atoi64_intDecimalBytes (i : Int) : atoi64 (intDecimalBytes i) = i := by
  unfold intDecimalBytes
  split
  · next hneg =>
    unfold atoi64
    rw [List.dropWhile_cons]
    norm_num [isSpaceByte]
    have h45 : ¬(45 : Nat) = 43 := by omega
    rw [parseDigits_natDecimalBytes]
    omega
  · next hnonneg =>
    rw [atoi64_natDecimalBytes]
    omega

lemma icast32_eq_self (x : Int) (hlo : -(2 ^ 31) ≤ x) (hhi : x < 2 ^ 31) :
    icast 32 x = x := by
  simp only [icast]
  norm_num at hlo hhi ⊢
  omega

lemma icast64_eq_self (x : Int) (hlo : -(2 ^ 63) ≤ x) (hhi : x < 2 ^ 63) :
    icast 64 x = x := by
  simp only [icast]
  norm_num at hlo hhi ⊢
  omega

lemma atoi64_nil : atoi64 [] = 0 := rfl

/-- The text path's raw parse agrees with the engine's integer interpretation
of the same datum, for every datum. -/
lemma atoi_on_sqlTextRepr (d : sqlvalue) : atoi_on (sqlTextRepr d) = sqlIntValue d := by
  cases d <;> simp [atoi_on, sqlTextRepr, sqlIntValue, atoi64_intDecimalBytes, atoi64_nil]

/-- Same as `atoi_on_sqlTextRepr` for the 64-bit parser model. -/
lemma atoll_on_sqlTextRepr (d : sqlvalue) : atoll_on (sqlTextRepr d) = sqlIntValue d := by
  cases d <;> simp [atoll_on, sqlTextRepr, sqlIntValue, atoi64_intDecimalBytes, atoi64_nil]

lemma icast_zero (w : Nat) : icast w 0 = 0 := by
  simp only [icast, Int.zero_emod]
  rw [if_pos (by positivity)]

/-! ## Claim theorems -/

/-- C1 (counterexample): the claim that every registered row extractor's three
decode paths agree on every underlying datum is false: for the
`std::vector<char>` extractor and a blob datum containing an embedded NUL
byte, the column-text path (which measures the text with `strlen`) truncates
at the NUL while the prepared-statement column path copies the full reported
byte count, so the two decoded values differ. -/
theorem decode_paths_disagree_on_blob_with_embedded_nul :
    ¬(vector_char_extract_text (sqlTextRepr (.blob [66, 0, 67])) =
        vector_char_extract_stmt ⟨[.blob [66, 0, 67]]⟩ 0
      ∧ vector_char_extract_stmt ⟨[.blob [66, 0, 67]]⟩ 0 =
        vector_char_extract_value (.blob [66, 0, 67])) := by
  decide

/-- C1 (amended): for every native arithmetic type decoded through the integer
sub-strategies (`int_or_smaller_tag` with the 32-bit accessors, `bigint_tag`
with the 64-bit accessors) and every underlying datum whose integer
interpretation lies in the accessor's range, the three decode paths — column
text, prepared-statement column, boxed dynamic value — yield the same logical
native value, namely the C++ conversion `castV` of that integer
interpretation; in particular decoding the representation of 42 agrees on all
three paths (see the witness). -/
theorem arithmetic_decode_paths_agree (tag : arithmetic_tag) (castV : Int → Int)
    (d : sqlvalue) (h : tagRange tag (sqlIntValue d)) :
    arithmetic_extract_text tag castV (sqlTextRepr d) = castV (sqlIntValue d)
    ∧ arithmetic_extract_stmt tag castV ⟨[d]⟩ 0 = castV (sqlIntValue d)
    ∧ arithmetic_extract_value tag castV d = castV (sqlIntValue d) := by
  cases tag with
  | int_or_smaller_tag =>
    obtain ⟨hlo, hhi⟩ := h
    refine ⟨?_, ?_, ?_⟩
    · simp only [arithmetic_extract_text]
      rw [atoi_on_sqlTextRepr]
    · simp only [arithmetic_extract_stmt, sqlite3_column_int]
      have hcol : column_value ⟨[d]⟩ 0 = d := rfl
      rw [hcol, icast32_eq_self _ hlo hhi]
    · simp only [arithmetic_extract_value, sqlite3_value_int]
      rw [icast32_eq_self _ hlo hhi]
  | bigint_tag =>
    obtain ⟨hlo, hhi⟩ := h
    refine ⟨?_, ?_, ?_⟩
    · simp only [arithmetic_extract_text]
      rw [atoll_on_sqlTextRepr]
    · simp only [arithmetic_extract_stmt, sqlite3_column_int64]
      have hcol : column_value ⟨[d]⟩ 0 = d := rfl
      rw [hcol, icast64_eq_self _ hlo hhi]
    · simp only [arithmetic_extract_value, sqlite3_value_int64]
      rw [icast64_eq_self _ hlo hhi]

/-- C1 (witness): at the concrete datum 42, with the 32-bit integer type
(`castV = icast 32`), all three decode paths yield 42. -/
theorem arithmetic_decode_paths_agree_at_42 :
    arithmetic_extract_text .int_or_smaller_tag (icast 32) (sqlTextRepr (.int 42)) = 42
    ∧ arithmetic_extract_stmt .int_or_smaller_tag (icast 32) ⟨[.int 42]⟩ 0 = 42
    ∧ arithmetic_extract_value .int_or_smaller_tag (icast 32) (.int 42) = 42 := by
  have h := arithmetic_decode_paths_agree .int_or_smaller_tag (icast 32) (.int 42)
    (by decide)
  have h42 : icast 32 (sqlIntValue (.int 42)) = 42 := by decide
  exact ⟨h.1.trans h42, h.2.1.trans h42, h.2.2.trans h42⟩

/-- C2: for every native arithmetic type — every integer tag with every C++
conversion `castV`, and the `real_tag` (floating) sub-strategies with every
conversion `castR` — extracting a SQL NULL on every decode path (the null
text pointer on the text path, a NULL column on the statement path, a NULL
boxed value on the value path) yields the conversion of 0, the numeric zero
of the native type, not an error.  The codec applies no null special case of
its own: the text path hands the pointer straight to the numeric parser
(whose null behaviour is the parse of the empty string, per the spec) and the
integer and double accessors of the engine return 0 for NULL. -/
theorem arithmetic_null_decodes_to_zero (tag : arithmetic_tag) (castV : Int → Int)
    (castR : ℚ → ℚ) (stmt : sqlite3_stmt) (i : Nat) (h : column_value stmt i = .null) :
    arithmetic_extract_text tag castV none = castV 0
    ∧ arithmetic_extract_stmt tag castV stmt i = castV 0
    ∧ arithmetic_extract_value tag castV .null = castV 0
    ∧ arithmetic_real_extract_text castR none = castR 0
    ∧ arithmetic_real_extract_stmt castR stmt i = castR 0
    ∧ arithmetic_real_extract_value castR .null = castR 0 := by
  have hints : arithmetic_extract_text tag castV none = castV 0
      ∧ arithmetic_extract_stmt tag castV stmt i = castV 0
      ∧ arithmetic_extract_value tag castV .null = castV 0 := by
    cases tag <;>
      exact ⟨by simp [arithmetic_extract_text, atoi_on, atoll_on, atoi64_nil],
        by simp [arithmetic_extract_stmt, sqlite3_column_int, sqlite3_column_int64, h,
          sqlIntValue, icast_zero],
        by simp [arithmetic_extract_value, sqlite3_value_int, sqlite3_value_int64,
          sqlIntValue, icast_zero]⟩
  refine ⟨hints.1, hints.2.1, hints.2.2, rfl, ?_, rfl⟩
  simp [arithmetic_real_extract_stmt, sqlite3_column_double, h, sqlRealValue]

/-- C2 (witness): the NULL-extraction facts at a concrete one-column NULL row,
the 32-bit integer type, and the double type (identity conversion). -/
theorem arithmetic_null_decodes_to_zero_instance :
    arithmetic_extract_text .int_or_smaller_tag (icast 32) none = icast 32 0
    ∧ arithmetic_extract_stmt .int_or_smaller_tag (icast 32) ⟨[.null]⟩ 0 = icast 32 0
    ∧ arithmetic_extract_value .int_or_smaller_tag (icast 32) .null = icast 32 0
    ∧ arithmetic_real_extract_text id none = id 0
    ∧ arithmetic_real_extract_stmt id ⟨[.null]⟩ 0 = id 0
    ∧ arithmetic_real_extract_value id .null = id 0 :=
  arithmetic_null_decodes_to_zero .int_or_smaller_tag (icast 32) id ⟨[.null]⟩ 0 rfl

/-- C3: the pointer-handle extractor (`row_extractor<pointer_arg<P, T>>`)
provides no column-text and no prepared-statement decode path (both `extract`
overloads are declared `= delete`, so any attempt to use them is rejected at
compile time) and provides only the boxed-value path, which retrieves the
typed pointer stored under the registered tag (the null pointer when the tag
does not match or the value is not a pointer-handle). -/
theorem pointer_arg_decodes_only_boxed_values :
    pointer_arg_supports .column_text = false
    ∧ pointer_arg_supports .row_value = false
    ∧ pointer_arg_supports .boxed_value = true
    ∧ (∀ (tag t : String) (p : Nat),
        pointer_arg_extract_value tag (.ptr t p) = if t = tag then some p else none)
    ∧ (∀ tag : String, pointer_arg_extract_value tag .null = none) :=
  ⟨rfl, rfl, rfl, fun _ _ _ => rfl, fun _ => rfl⟩

/-- C4: the journal-mode decoder maps the text "wal" to the WAL mode value;
an unrecognized string such as "bogus", or the null text pointer, raises the
fatal decode error `incorrect_journal_mode_string` (embedded as
`Except.error`), never a default value — in general every text whose parse
against the fixed vocabulary fails is decoded to that error.  The
prepared-statement path reads the column text and delegates to the text
path. -/
theorem journal_mode_decode_strict :
    journal_mode_extract_text (some (strBytes "wal")) = Except.ok journal_mode.WAL
    ∧ journal_mode_extract_text (some (strBytes "bogus")) =
        Except.error orm_error_code.incorrect_journal_mode_string
    ∧ journal_mode_extract_text none =
        Except.error orm_error_code.incorrect_journal_mode_string
    ∧ (∀ b : CStr, journal_mode_from_string (cstrTake b) = none →
        journal_mode_extract_text (some b) =
          Except.error orm_error_code.incorrect_journal_mode_string)
    ∧ (∀ (stmt : sqlite3_stmt) (i : Nat),
        journal_mode_extract_stmt stmt i =
          journal_mode_extract_text (sqlite3_column_text stmt i)) := by
  refine ⟨by rfl, by rfl, rfl, ?_, fun _ _ => rfl⟩
  intro b hb
  simp [journal_mode_extract_text, hb]

/-- C4 (witness): a concrete text outside the vocabulary decodes to the fatal
error through the general conjunct of the theorem. -/
theorem journal_mode_decode_strict_instance :
    journal_mode_from_string (cstrTake (strBytes "vogus")) = none
    ∧ journal_mode_extract_text (some (strBytes "vogus")) =
        Except.error orm_error_code.incorrect_journal_mode_string :=
  ⟨by decide, journal_mode_decode_strict.2.2.2.1 (strBytes "vogus") (by decide)⟩

/-- C5: for every wrapped type (its three inner decoders `ft`, `fs`, `fv` are
arbitrary), the `std::optional` extractor is absent exactly when the
underlying value is SQL NULL — on the text path the null pointer, which the
engine yields exactly for values of type `SQLITE_NULL` (first conjunct) —
and otherwise is present with the inner decoder's result on the same
underlying value. -/
theorem optional_absent_iff_underlying_null {α : Type} (ft : Option CStr → α)
    (fs : sqlite3_stmt → Nat → α) (fv : sqlvalue → α) (d : sqlvalue)
    (stmt : sqlite3_stmt) (i : Nat) (ct : Option CStr) :
    (sqlTextRepr d = none ↔ sqlite3_value_type d = SQLITE_NULL)
    ∧ optional_extract_text ft ct = (if ct = none then none else some (ft ct))
    ∧ optional_extract_stmt fs stmt i =
        (if sqlite3_column_type stmt i = SQLITE_NULL then none else some (fs stmt i))
    ∧ optional_extract_value fv d =
        (if sqlite3_value_type d = SQLITE_NULL then none else some (fv d)) := by
  refine ⟨?_, ?_, ?_, ?_⟩
  · cases d <;>
      simp [sqlTextRepr, sqlite3_value_type, SQLITE_NULL, SQLITE_INTEGER,
        SQLITE_TEXT, SQLITE_BLOB]
  · cases ct <;> simp [optional_extract_text]
  · by_cases h : sqlite3_column_type stmt i = SQLITE_NULL <;>
      simp [optional_extract_stmt, h]
  · by_cases h : sqlite3_value_type d = SQLITE_NULL <;>
      simp [optional_extract_value, h]

/-- C6: tuple decoding is positional and name-independent: in cursor mode
element `i` of an `N`-element tuple is decoded from column index `i` by that
element's own extractor, and in callback mode from `argv[i]`; concretely, a
3-tuple decoded from the 3-column row `(10, 20, 30)` receives 10, 20, 30 at
elements 0, 1, 2. -/
theorem tuple_decode_is_positional {n : Nat} {T : Fin n → Type}
    (extrS : ∀ i : Fin n, sqlite3_stmt → Nat → T i)
    (extrA : ∀ i : Fin n, Option CStr → T i)
    (stmt : sqlite3_stmt) (columnIndex : Nat) (argv : Nat → Option CStr) (i : Fin n) :
    tuple_extract_stmt extrS stmt columnIndex i = extrS i stmt i.val
    ∧ tuple_extract_argv extrA argv i = extrA i (argv i.val)
    ∧ (∀ j : Fin 3,
        tuple_extract_stmt
          (fun _ : Fin 3 => arithmetic_extract_stmt .int_or_smaller_tag (icast 32))
          ⟨[.int 10, .int 20, .int 30]⟩ 0 j = 10 * ((j : Nat) + 1)) :=
  ⟨rfl, rfl, by decide⟩

/-- C7: for both embedded text types (`std::string`-based and
`std::wstring`, with arbitrary narrow/wide conversions `conv`, `enc16`),
decoding a SQL NULL yields the empty string on every decode path: the null
text pointer on the text path, and any column or boxed value of type
`SQLITE_NULL` on the other two paths.  All extractors are total functions —
decoding never fails or throws. -/
theorem text_null_decodes_to_empty_string (conv enc16 : List Nat → List Nat)
    (d : sqlvalue) (h : sqlite3_value_type d = SQLITE_NULL) :
    string_extract_text none = []
    ∧ string_extract_stmt ⟨[d]⟩ 0 = []
    ∧ string_extract_value d = []
    ∧ wstring_extract_text conv none = []
    ∧ wstring_extract_stmt conv ⟨[d]⟩ 0 = []
    ∧ wstring_extract_value enc16 d = [] := by
  have hrepr : sqlTextRepr d = none := by
    cases d <;> first
      | rfl
      | (exfalso
         simp [sqlite3_value_type, SQLITE_NULL, SQLITE_INTEGER, SQLITE_TEXT,
           SQLITE_BLOB] at h)
  have hcol : sqlite3_column_text ⟨[d]⟩ 0 = none := hrepr
  refine ⟨rfl, ?_, ?_, rfl, ?_, ?_⟩
  · simp [string_extract_stmt, hcol]
  · simp [string_extract_value, sqlite3_value_text, hrepr]
  · simp [wstring_extract_stmt, hcol]
  · simp [wstring_extract_value, sqlite3_value_text16, hrepr]

/-- C7 (witness): the empty-string decode facts at the concrete NULL value. -/
theorem text_null_decodes_to_empty_string_at_null :
    string_extract_text none = []
    ∧ string_extract_stmt ⟨[.null]⟩ 0 = []
    ∧ string_extract_value .null = []
    ∧ wstring_extract_text id none = []
    ∧ wstring_extract_stmt id ⟨[.null]⟩ 0 = []
    ∧ wstring_extract_value id .null = [] :=
  text_null_decodes_to_empty_string id id .null rfl

/-- C8: the smart-pointer extractor has, on every decode path, semantics
identical to the optional extractor: with `mk` the pointer type's allocation
(`is_std_ptr<V>::make`) and `empty` its null state, its result is exactly the
optional extractor's result eliminated through `empty`/`mk` — the pointer is
empty exactly when the optional is absent, and otherwise holds the very value
the optional would hold, differing only in materialization. -/
theorem std_ptr_semantics_match_optional {α β : Type} (mk : α → β) (empty : β)
    (ft : Option CStr → α) (fs : sqlite3_stmt → Nat → α) (fv : sqlvalue → α)
    (ct : Option CStr) (stmt : sqlite3_stmt) (i : Nat) (v : sqlvalue) :
    std_ptr_extract_text mk empty ft ct =
      (optional_extract_text ft ct).elim empty mk
    ∧ std_ptr_extract_stmt mk empty fs stmt i =
        (optional_extract_stmt fs stmt i).elim empty mk
    ∧ std_ptr_extract_value mk empty fv v =
        (optional_extract_value fv v).elim empty mk := by
  refine ⟨?_, ?_, ?_⟩
  · cases ct <;> rfl
  · by_cases h : sqlite3_column_type stmt i = SQLITE_NULL <;>
      simp [std_ptr_extract_stmt, optional_extract_stmt, h]
  · by_cases h : sqlite3_value_type v = SQLITE_NULL <;>
      simp [std_ptr_extract_value, optional_extract_value, h]

/-- C9: in cursor mode the tuple extractor ignores the column-index argument:
the source's `extract(sqlite3_stmt*, int)` leaves the parameter unnamed and
decodes elements from column indices `0..N-1`, so the decoded tuple is the
same for every column-index argument. -/
theorem tuple_stmt_extract_ignores_column_index {n : Nat} {T : Fin n → Type}
    (extr : ∀ i : Fin n, sqlite3_stmt → Nat → T i) (stmt : sqlite3_stmt)
    (columnIndex columnIndex2 : Nat) :
    tuple_extract_stmt extr stmt columnIndex =
      tuple_extract_stmt extr stmt columnIndex2 :=
  rfl

/-- C10: the blob (`std::vector<char>`) extractor's column-text path yields
the bytes of the text up to (excluding) the first NUL byte — the length is
computed with `strlen` — and the empty byte sequence for the null pointer,
while the prepared-statement and boxed-value paths copy the full reported
byte count; hence on a text datum with an embedded NUL the text path
truncates where the other two paths do not. -/
theorem vector_char_text_path_truncates_at_nul :
    (∀ b : CStr, vector_char_extract_text (some b) = b.takeWhile (fun c => c ≠ 0))
    ∧ vector_char_extract_text none = []
    ∧ (∀ (stmt : sqlite3_stmt) (i : Nat),
        vector_char_extract_stmt stmt i = sqlite3_column_blob stmt i)
    ∧ (∀ v : sqlvalue, vector_char_extract_value v = sqlite3_value_blob v)
    ∧ vector_char_extract_text (sqlTextRepr (.text [65, 0, 66])) = [65]
    ∧ vector_char_extract_stmt ⟨[.text [65, 0, 66]]⟩ 0 = [65, 0, 66]
    ∧ vector_char_extract_value (.text [65, 0, 66]) = [65, 0, 66] := by
  refine ⟨?_, rfl, ?_, ?_, by decide, by decide, by decide⟩
  · intro b
    simp only [vector_char_extract_text, strlen, cstrTake]
    exact (List.prefix_iff_eq_take.mp (List.takeWhile_prefix _)).symm
  · intro stmt i
    simp [vector_char_extract_stmt, sqlite3_column_blob, sqlite3_column_bytes,
      List.take_length]
  · intro v
    simp [vector_char_extract_value, sqlite3_value_blob, sqlite3_value_bytes,
      List.take_length]

end SqliteOrm
